import Mathlib

/-!
Shallow embedding of the Raspberry Pi playground drivers
(src/custom-drivers/custom-gpio-driver.c, custom-pwm-driver.c,
custom-led-driver.c) and proofs about the behaviour their spec claims.

Registers are modelled as natural numbers holding 32-bit values; bitwise
operations are Nat's `&&&`, `|||`, `^^^`, `<<<`, `>>>`.  The C `~` on a
`uint32_t` is modelled by xor against `0xFFFFFFFF`.  Memory-mapped side
effects are made explicit: each operation returns its status, the new
register state, and the list of register writes it performed, in order.
The kernel mutexes serialize the modelled critical sections, so each C
function (and each iteration of the blink kthread's loop) is one atomic
step of the model.
-/

/-! ## Error codes (src/custom-drivers/custom-errno.h, plus the two
standard kernel codes the LED driver returns) -/

def ENONE : Int := 0

def EINTERNAL : Int := 1000

def EINVPIN : Int := 1001

def EINVREG : Int := 1002

def EMAPPING : Int := 1003

def EUNSUPCMD : Int := 1004

def EINVFUNC : Int := 1006

/-- linux EMSGSIZE, returned by led_write for over-long input. -/
def EMSGSIZE : Int := 90

/-- linux ENOMEM: stands for the (unspecified) PTR_ERR code of a failed
kthread_run in led_write's blink branch. -/
def ENOMEM : Int := 12

/-! ## GPIO driver constants (src/custom-drivers/custom-gpio-driver.c) -/

def MIN_PIN_NUM : Nat := 2

def MAX_PIN_NUM : Nat := 27

def GPFSEL_GPIO_PINS_PER_REG : Nat := 10

def GPFSEL_MAX_REG_OFFSET : Nat := MAX_PIN_NUM / GPFSEL_GPIO_PINS_PER_REG

def GPFSEL_FIELD_BIT_WIDTH : Nat := 3

def GPFSEL_FIELD_MASK : Nat := 0x07

def GPFSEL_INPUT : Nat := 0x00

def GPFSEL_OUTPUT : Nat := 0x01

def GPFSEL_ALT_FUNC_0 : Nat := 0x04

def GPFSEL_ALT_FUNC_1 : Nat := 0x05

def GPFSEL_ALT_FUNC_2 : Nat := 0x06

def GPFSEL_ALT_FUNC_3 : Nat := 0x07

def GPFSEL_ALT_FUNC_4 : Nat := 0x03

def GPFSEL_ALT_FUNC_5 : Nat := 0x02

def GPIO_INPUT_FUNC : Nat := GPFSEL_INPUT

def GPIO_OUTPUT_FUNC : Nat := GPFSEL_OUTPUT

def GPIO_ALT_FUNC_0 : Nat := GPFSEL_ALT_FUNC_0

def GPIO_ALT_FUNC_1 : Nat := GPFSEL_ALT_FUNC_1

def GPIO_ALT_FUNC_2 : Nat := GPFSEL_ALT_FUNC_2

def GPIO_ALT_FUNC_3 : Nat := GPFSEL_ALT_FUNC_3

def GPIO_ALT_FUNC_4 : Nat := GPFSEL_ALT_FUNC_4

def GPIO_ALT_FUNC_5 : Nat := GPFSEL_ALT_FUNC_5

def GPIO_INVALID_FUNC : Nat := 0xFF

def OUTPUT_CTL_WRT_VAL : Nat := 0x01

/-- `~x` on a `uint32_t`: xor against the all-ones 32-bit word. -/
def not32 (x : Nat) : Nat := 0xFFFFFFFF ^^^ x

/-! ## GPIO register state

Only the registers the driver touches are modelled: the three GPFSEL
words covering pins 0..29 (pins are validated to 2..27, so word offsets
0..2).  The GPSET/GPCLR output registers are write-only strobes with no
readable latch, so writes to them appear only in the write trace. -/

structure GpioRegs where
  fsel0 : Nat
  fsel1 : Nat
  fsel2 : Nat
deriving DecidableEq, Repr

/-- One hardware write of the GPIO driver, in program order. -/
inductive GpioWr where
  /-- write of `val` to GPFSEL word `idx` -/
  | fsel (idx : Nat) (val : Nat)
  /-- write of `val` to the GPSET0 register -/
  | outSet (val : Nat)
  /-- write of `val` to the GPCLR0 register -/
  | outClr (val : Nat)
deriving DecidableEq, Repr

def fselWord (s : GpioRegs) (idx : Nat) : Nat :=
  match idx with
  | 0 => s.fsel0
  | 1 => s.fsel1
  | _ => s.fsel2

def setFselWord (s : GpioRegs) (idx v : Nat) : GpioRegs :=
  match idx with
  | 0 => { s with fsel0 := v }
  | 1 => { s with fsel1 := v }
  | _ => { s with fsel2 := v }

/-- Read-back of one pin's 3-bit function-select field. -/
def getPinFunc (s : GpioRegs) (pin : Nat) : Nat :=
  (fselWord s (pin / GPFSEL_GPIO_PINS_PER_REG) >>>
      (pin % GPFSEL_GPIO_PINS_PER_REG * GPFSEL_FIELD_BIT_WIDTH)) &&&
    GPFSEL_FIELD_MASK

/-! ## GPIO driver operations -/

def gpio_is_valid_pin (pin_num : Nat) : Bool :=
  decide (MIN_PIN_NUM ≤ pin_num) && decide (pin_num ≤ MAX_PIN_NUM)

def gpio_is_valid_pin_func (gpio_func_type : Nat) : Bool :=
  gpio_func_type == GPIO_INPUT_FUNC || gpio_func_type == GPIO_OUTPUT_FUNC ||
  gpio_func_type == GPIO_ALT_FUNC_0 || gpio_func_type == GPIO_ALT_FUNC_1 ||
  gpio_func_type == GPIO_ALT_FUNC_2 || gpio_func_type == GPIO_ALT_FUNC_3 ||
  gpio_func_type == GPIO_ALT_FUNC_4 || gpio_func_type == GPIO_ALT_FUNC_5

/-- gpio_set_pin_function: validate the pin and the function code,
re-validate the computed register offset, then a mutex-guarded
read-modify-write that clears the pin's 3-bit field and ORs the new
function code in. -/
def gpio_set_pin_function (pin_num gpio_func_type : Nat) (s : GpioRegs) :
    Int × GpioRegs × List GpioWr :=
  if !gpio_is_valid_pin pin_num then (-EINVPIN, s, [])
  else if !gpio_is_valid_pin_func gpio_func_type then (-EINVFUNC, s, [])
  else
    let register_offset := pin_num / GPFSEL_GPIO_PINS_PER_REG
    if GPFSEL_MAX_REG_OFFSET < register_offset then (-EINVREG, s, [])
    else
      let fsel_field_num := pin_num % GPFSEL_GPIO_PINS_PER_REG
      let reg_value_to_write :=
        (fselWord s register_offset &&&
            not32 (GPFSEL_FIELD_MASK <<< (fsel_field_num * GPFSEL_FIELD_BIT_WIDTH))) |||
          (gpio_func_type <<< (fsel_field_num * GPFSEL_FIELD_BIT_WIDTH))
      (ENONE, setFselWord s register_offset reg_value_to_write,
        [GpioWr.fsel register_offset reg_value_to_write])

/-- gpio_output_ctl: validate the pin, then one write of `1 << pin` to
GPSET0 (do_set) or GPCLR0 (not do_set).  The strobe registers latch no
state, so the GpioRegs are unchanged. -/
def gpio_output_ctl (pin_num : Nat) (do_set : Bool) (s : GpioRegs) :
    Int × GpioRegs × List GpioWr :=
  if !gpio_is_valid_pin pin_num then (-EINVPIN, s, [])
  else if do_set then (ENONE, s, [GpioWr.outSet (OUTPUT_CTL_WRT_VAL <<< pin_num)])
  else (ENONE, s, [GpioWr.outClr (OUTPUT_CTL_WRT_VAL <<< pin_num)])

/-- gpio_set_pin_to_output: validate, drive the initial level, then
switch the pin's function to Output. -/
def gpio_set_pin_to_output (pin_num : Nat) (is_on_initially : Bool) (s : GpioRegs) :
    Int × GpioRegs × List GpioWr :=
  if !gpio_is_valid_pin pin_num then (-EINVPIN, s, [])
  else
    let r1 := gpio_output_ctl pin_num is_on_initially s
    if r1.1 ≠ ENONE then r1
    else
      let r2 := gpio_set_pin_function pin_num GPIO_OUTPUT_FUNC r1.2.1
      if r2.1 ≠ ENONE then (r2.1, r2.2.1, r1.2.2 ++ r2.2.2)
      else (ENONE, r2.2.1, r1.2.2 ++ r2.2.2)

/-! ## PWM channels and the GPIO driver's PWM pin lookup -/

inductive PwmChannel where
  | PWM_0
  | PWM_1
  | NOT_PWM
deriving DecidableEq, Repr

def gpio_is_pin_pwm (pin_num : Nat) : PwmChannel :=
  match pin_num with
  | 12 => .PWM_0
  | 18 => .PWM_0
  | 13 => .PWM_1
  | 19 => .PWM_1
  | _ => .NOT_PWM

def gpio_determine_pwm_alt_func (pin_num : Nat) : Nat :=
  match pin_num with
  | 12 => GPIO_ALT_FUNC_0
  | 13 => GPIO_ALT_FUNC_0
  | 18 => GPIO_ALT_FUNC_5
  | 19 => GPIO_ALT_FUNC_5
  | _ => GPIO_INVALID_FUNC

/-- gpio_set_pin_to_pwm: reject non-PWM pins, look up (and only validate)
the PWM alternate function, then set the pin's function to
GPIO_OUTPUT_FUNC — the looked-up alternate-function code is not the one
written. -/
def gpio_set_pin_to_pwm (pin_num : Nat) (s : GpioRegs) : Int × GpioRegs × List GpioWr :=
  if gpio_is_pin_pwm pin_num = .NOT_PWM then (-EINVPIN, s, [])
  else if gpio_determine_pwm_alt_func pin_num = GPIO_INVALID_FUNC then (-EINVFUNC, s, [])
  else
    let r := gpio_set_pin_function pin_num GPIO_OUTPUT_FUNC s
    if r.1 ≠ ENONE then r
    else (ENONE, r.2.1, r.2.2)

theorem gpio_sanity_example : getPinFunc (setFselWord ⟨0, 0, 0⟩ 1 (2 <<< 21)) 17 = 2 := by
  decide

/-! ## PWM driver (src/custom-drivers/custom-pwm-driver.c) -/

def PWM_CLK_RATE : Nat := 19200000

def PWEN_1_FIELD : Nat := 1

def PWEN_2_FIELD : Nat := 1 <<< 8

/-- pwm_cycle_freq_t: PWM_FREQ_4_kHZ = 4000, PWM_INVALID_FREQ = 0.  The C
enum has integer type, and calc_pwm_data_val_from_percent feeds a raw
range value to validate_cycle_freq, so frequencies are modelled as the
underlying numbers. -/
def PWM_FREQ_4_kHZ : Nat := 4000

/-- The PWM peripheral registers the driver touches (ctl shared by both
channels; per-channel range and data).  sta, dmac and fif_1 are never
accessed by the driver and are omitted. -/
structure PwmRegs where
  ctl : Nat
  rng_1 : Nat
  dat_1 : Nat
  rng_2 : Nat
  dat_2 : Nat
deriving DecidableEq, Repr

/-- One event of the PWM driver, in program order: a register write, or
the iounmap of the peripheral mapping. -/
inductive PwmEv where
  | unmap
  | wCtl
  | wRng1
  | wDat1
  | wRng2
  | wDat2
deriving DecidableEq, Repr

def validate_cycle_freq (cycle_freq : Nat) : Bool :=
  cycle_freq == PWM_FREQ_4_kHZ

def validate_pwm_channel (pwm_channel : PwmChannel) : Bool :=
  match pwm_channel with
  | .PWM_0 => true
  | .PWM_1 => true
  | .NOT_PWM => false

def calc_pwm_range_val_from_cycle_freq (cycle_freq : Nat) : Nat :=
  if !validate_cycle_freq cycle_freq then 0
  else PWM_CLK_RATE / cycle_freq

/-- calc_pwm_data_val_from_percent, including its guard: the range value
is passed to validate_cycle_freq (the frequency validator) and the
function returns 0 whenever that rejects.  percent is a C int.  For
0 < percent < 100 the product (range / 100) * percent stays below 2^32,
so no 32-bit reduction is needed. -/
def calc_pwm_data_val_from_percent (percent : Int) (pwm_range_val : Nat) : Nat :=
  if !validate_cycle_freq pwm_range_val then 0
  else if 100 ≤ percent then pwm_range_val
  else if percent ≤ 0 then 0
  else (pwm_range_val / 100) * percent.toNat

/-- pwm_init_pwm_channel: mutex-guarded; clears the 8 control-word bits
of the chosen channel, writes its data and range registers, then ORs the
channel's enable bit in if requested. -/
def pwm_init_pwm_channel (pwm_channel : PwmChannel)
    (initial_data_value initial_range_value : Nat) (is_enabled_initially : Bool)
    (s : PwmRegs) : Int × PwmRegs × List PwmEv :=
  match pwm_channel with
  | .PWM_0 =>
    let s1 := { s with ctl := s.ctl &&& 0xFFFFFF00 }
    let s2 := { s1 with dat_1 := initial_data_value }
    let s3 := { s2 with rng_1 := initial_range_value }
    if is_enabled_initially then
      (ENONE, { s3 with ctl := s3.ctl ||| PWEN_1_FIELD },
        [.wCtl, .wDat1, .wRng1, .wCtl])
    else (ENONE, s3, [.wCtl, .wDat1, .wRng1])
  | .PWM_1 =>
    let s1 := { s with ctl := s.ctl &&& 0xFFFF00FF }
    let s2 := { s1 with dat_2 := initial_data_value }
    let s3 := { s2 with rng_2 := initial_range_value }
    if is_enabled_initially then
      (ENONE, { s3 with ctl := s3.ctl ||| PWEN_2_FIELD },
        [.wCtl, .wDat2, .wRng2, .wCtl])
    else (ENONE, s3, [.wCtl, .wDat2, .wRng2])
  | .NOT_PWM => (-EINVFUNC, s, [])

/-- pwm_reset_pwm_channels: both channels back to the data-sheet reset
values (data 0, range 0x20, disabled). -/
def pwm_reset_pwm_channels (s : PwmRegs) : PwmRegs × List PwmEv :=
  let r0 := pwm_init_pwm_channel .PWM_0 0 0x20 false s
  let r1 := pwm_init_pwm_channel .PWM_1 0 0x20 false r0.2.1
  (r1.2.1, r0.2.2 ++ r1.2.2)

def pwm_get_channel_range_val (pwm_channel : PwmChannel) (s : PwmRegs) : Int × Nat :=
  match pwm_channel with
  | .PWM_0 => (ENONE, s.rng_1)
  | .PWM_1 => (ENONE, s.rng_2)
  | .NOT_PWM => (-EINVFUNC, 0)

def pwm_set_channel_data_val (pwm_channel : PwmChannel) (data_val : Nat)
    (s : PwmRegs) : PwmRegs × List PwmEv :=
  match pwm_channel with
  | .PWM_0 => ({ s with dat_1 := data_val }, [.wDat1])
  | .PWM_1 => ({ s with dat_2 := data_val }, [.wDat2])
  | .NOT_PWM => (s, [])

def pwm_init_user_device (pwm_channel : PwmChannel) (duty_cycle : Int)
    (cycle_freq : Nat) (is_enabled_initially : Bool) (s : PwmRegs) :
    Int × PwmRegs × List PwmEv :=
  let range_val := calc_pwm_range_val_from_cycle_freq cycle_freq
  if range_val = 0 then (-EINVFUNC, s, [])
  else
    let data_val := calc_pwm_data_val_from_percent duty_cycle range_val
    pwm_init_pwm_channel pwm_channel data_val range_val is_enabled_initially s

/-- pwm_set_duty_cycle as written: the entry guard is
`if (validate_pwm_channel(pwm_channel)) return -EINVFUNC;` — valid
channels are turned away at the door, and invalid ones fail inside
pwm_get_channel_range_val. -/
def pwm_set_duty_cycle (pwm_channel : PwmChannel) (duty_cycle : Int)
    (s : PwmRegs) : Int × PwmRegs × List PwmEv :=
  if validate_pwm_channel pwm_channel then (-EINVFUNC, s, [])
  else
    let r := pwm_get_channel_range_val pwm_channel s
    if r.1 ≠ ENONE then (r.1, s, [])
    else
      let data_val := calc_pwm_data_val_from_percent duty_cycle r.2
      let w := pwm_set_channel_data_val pwm_channel data_val s
      (ENONE, w.1, w.2)

def pwm_enable (pwm_channel : PwmChannel) (do_enable : Bool) (s : PwmRegs) :
    Int × PwmRegs × List PwmEv :=
  match pwm_channel with
  | .PWM_0 =>
    if do_enable then (ENONE, { s with ctl := s.ctl ||| PWEN_1_FIELD }, [.wCtl])
    else (ENONE, { s with ctl := s.ctl &&& not32 PWEN_1_FIELD }, [.wCtl])
  | .PWM_1 =>
    if do_enable then (ENONE, { s with ctl := s.ctl ||| PWEN_2_FIELD }, [.wCtl])
    else (ENONE, { s with ctl := s.ctl &&& not32 PWEN_2_FIELD }, [.wCtl])
  | .NOT_PWM => (-EINVFUNC, s, [])

/-- The PWM module's lifecycle state: whether the ioremap mapping of the
peripheral is live, and the registers. -/
structure PwmDriver where
  mapped : Bool
  regs : PwmRegs
deriving DecidableEq, Repr

/-- pwm_driver_exit: iounmap the mapping if it exists, THEN call
pwm_reset_pwm_channels — the reset's register writes happen after the
unmap, through the stale pointer. -/
def pwm_driver_exit (d : PwmDriver) : PwmDriver × List PwmEv :=
  let unmapEvs : List PwmEv := if d.mapped then [.unmap] else []
  let r := pwm_reset_pwm_channels d.regs
  (⟨false, r.1⟩, unmapEvs ++ r.2)

/-- The spec's invariant, as a check over an event trace: starting from a
given mapping state, every register write happens while the mapping is
live. -/
def writesOnlyWhileMapped (mapped : Bool) : List PwmEv → Bool
  | [] => true
  | .unmap :: es => writesOnlyWhileMapped false es
  | _ :: es => mapped && writesOnlyWhileMapped mapped es

theorem pwm_sanity_example :
    (pwm_set_duty_cycle .PWM_0 50 ⟨0, 4800, 0, 32, 0⟩).1 = -EINVFUNC := by
  decide

/-! ## LED driver (src/custom-drivers/custom-led-driver.c)

One led_dev_t per device.  The GPSET/GPCLR writes the LED driver causes
are recorded as events (the GPFSEL words play no part in led_write or
led_blink, so the GpioRegs state is not threaded here; gpio_output_ctl's
status and write list do not depend on it).  kthread_run / kthread_stop
appear as spawn / join events, so a trace-level counter of live blink
threads can be checked.  kthread_stop both requests the stop and joins:
the stopped thread observes the request at its loop head and runs
exactly its exit sequence before the join returns. -/

def MSG_BUF_MAX_SIZE : Nat := 7

def FIRST_LED_PIN : Nat := 22

inductive LedState where
  | LED_OFF
  | LED_ON
  | LED_BLINK
deriving DecidableEq, Repr

/-- The p_blink_thread field: NULL, a live kthread, or the ERR_PTR left
behind by a failed kthread_run. -/
inductive BlinkPtr where
  | null
  | live (id : Nat)
  | errPtr
deriving DecidableEq, Repr

def isLive : BlinkPtr → Bool
  | .live _ => true
  | _ => false

structure LedDev where
  pin_num : Nat
  is_led_on : Bool
  led_state : LedState
  /-- the 7-byte msg_buffer; stale bytes from earlier writes persist -/
  msg_buffer : List Nat
  p_blink_thread : BlinkPtr
deriving DecidableEq, Repr

/-- One observable event of the LED driver, in program order. -/
inductive LedEv where
  | gpio (w : GpioWr)
  /-- a blink kthread was started by kthread_run -/
  | spawnTask (id : Nat)
  /-- the blink kthread with this id returned, i.e. fully exited; when
  the exit was requested, kthread_stop returns only after this event -/
  | endTask (id : Nat)
deriving DecidableEq, Repr

/-- The exit event of the device's blink thread, as instrumentation of
the `return` that ends the kthread function. -/
def blink_end_evs (d : LedDev) : List LedEv :=
  match d.p_blink_thread with
  | .live id => [.endTask id]
  | _ => []

/-- The LED driver's calls to gpio_output_ctl: its status and its writes,
lifted to LED events (the result does not depend on the GPIO register
words, so a fixed register state is passed). -/
def led_gpio_output_ctl (pin_num : Nat) (do_set : Bool) : Int × List LedEv :=
  let r := gpio_output_ctl pin_num do_set ⟨0, 0, 0⟩
  (r.1, r.2.2.map LedEv.gpio)

def get_led_state_from_physical_state (d : LedDev) : LedState :=
  if d.is_led_on then .LED_ON else .LED_OFF

/-- One iteration of led_blink's loop, entered with no stop request
pending: toggle the output; on write failure set led_state from the
last known physical level, clear the thread pointer and return the
error (the thread exits). -/
def led_blink_body (d : LedDev) : Int × LedDev × List LedEv :=
  let r := led_gpio_output_ctl d.pin_num (!d.is_led_on)
  if r.1 ≠ ENONE then
    (r.1,
      { d with led_state := get_led_state_from_physical_state d,
               p_blink_thread := .null }, r.2 ++ blink_end_evs d)
  else (ENONE, { d with is_led_on := !d.is_led_on }, r.2)

/-- led_blink's exit sequence, run once kthread_should_stop holds: try to
drive the output low, record the level only if that write succeeded, set
led_state from the physical level, clear the thread pointer, and return
the status of that last write. -/
def led_blink_exit (d : LedDev) : Int × LedDev × List LedEv :=
  let r := led_gpio_output_ctl d.pin_num false
  let d1 := if r.1 = ENONE then { d with is_led_on := false } else d
  (r.1,
    { d1 with led_state := get_led_state_from_physical_state d1,
              p_blink_thread := .null }, r.2 ++ blink_end_evs d)

/-- led_blink: the kthread function.  `iters` is the number of loop
iterations that run before kthread_should_stop first returns true (the
msleep_interruptible between iterations is not modelled). -/
def led_blink : Nat → LedDev → Int × LedDev × List LedEv
  | 0, d => led_blink_exit d
  | n + 1, d =>
    let r := led_blink_body d
    if r.1 ≠ ENONE then r
    else
      let rest := led_blink n r.2.1
      (rest.1, rest.2.1, r.2.2 ++ rest.2.2)

/-- clear_led_blinking: when the device is in the blink state, stop the
blink kthread.  kthread_stop joins the thread, which runs its exit
sequence (led_blink with zero further loop iterations); kthread_stop's
return value — the thread's status — is discarded by every caller.  A
blink state with a NULL pointer is reported as -EINTERNAL.  If the
pointer is the ERR_PTR of a failed kthread_run, the C calls
kthread_stop on a non-thread, which is undefined; that branch is
unreachable while the blinking invariant holds, and the model leaves the
device unchanged there. -/
def clear_led_blinking (d : LedDev) : Int × LedDev × List LedEv :=
  if d.led_state = .LED_BLINK then
    match d.p_blink_thread with
    | .null => (-EINTERNAL, d, [])
    | .live _ =>
      let r := led_blink 0 d
      (ENONE, r.2.1, r.2.2)
    | .errPtr => (ENONE, d, [])
  else (ENONE, d, [])

/-- The command tables, as byte strings: "OFF", "ON", "TOGGLE", "BLINK"
and "0", "1", "2", "3". -/
def led_write_word_cmds : List (List Nat) :=
  [[79, 70, 70], [79, 78], [84, 79, 71, 71, 76, 69], [66, 76, 73, 78, 75]]

def led_write_num_cmds : List (List Nat) := [[48], [49], [50], [51]]

/-- ASCII tolower, as strncasecmp applies it byte by byte. -/
def c_tolower (c : Nat) : Nat := if 65 ≤ c && c ≤ 90 then c + 32 else c

/-- Byte `i` of a C string: the stored bytes, then the NUL terminator. -/
def cstr_byte (s : List Nat) (i : Nat) : Nat := s.getD i 0

/-- strncasecmp(s1, s2, n) == 0: compare at most n bytes case-
insensitively, stopping early at a NUL common to both. -/
def strncasecmp_is_zero (s1 s2 : List Nat) : Nat → Nat → Bool
  | _, 0 => true
  | i, n + 1 =>
    let c1 := c_tolower (cstr_byte s1 i)
    let c2 := c_tolower (cstr_byte s2 i)
    if c1 ≠ c2 then false
    else if c1 = 0 then true
    else strncasecmp_is_zero s1 s2 (i + 1) n

/-- The dispatch test of led_write for command index k (0 OFF, 1 ON,
2 TOGGLE, 3 BLINK): the word form or the numeral form matches the first
len bytes of the message buffer. -/
def led_cmd_matches (k : Nat) (buf : List Nat) (len : Nat) : Bool :=
  strncasecmp_is_zero (led_write_word_cmds.getD k []) buf 0 len ||
  strncasecmp_is_zero (led_write_num_cmds.getD k []) buf 0 len

/-- led_write.  `userBytes` is what copy_from_user delivers (assumed to
succeed), so len = userBytes.length.  `spawn` models kthread_run in the
blink branch: `some id` is a fresh thread, `none` a failure (the C then
stores the ERR_PTR in p_blink_thread and returns its code, modelled as
-ENOMEM).  Returns the ssize_t status, the device, and the events. -/
def led_write (d : LedDev) (userBytes : List Nat) (spawn : Option Nat) :
    Int × LedDev × List LedEv :=
  let len := userBytes.length
  if MSG_BUF_MAX_SIZE < len then (-EMSGSIZE, d, [])
  else if len = 0 then (0, d, [])
  else
    let d0 := { d with msg_buffer := userBytes ++ d.msg_buffer.drop len }
    if led_cmd_matches 0 d0.msg_buffer len then
      let c := clear_led_blinking d0
      let r := led_gpio_output_ctl c.2.1.pin_num false
      if r.1 ≠ ENONE then (r.1, c.2.1, c.2.2 ++ r.2)
      else ((len : Int),
        { c.2.1 with is_led_on := false, led_state := .LED_OFF }, c.2.2 ++ r.2)
    else if led_cmd_matches 1 d0.msg_buffer len then
      let c := clear_led_blinking d0
      let r := led_gpio_output_ctl c.2.1.pin_num true
      if r.1 ≠ ENONE then (r.1, c.2.1, c.2.2 ++ r.2)
      else ((len : Int),
        { c.2.1 with is_led_on := true, led_state := .LED_ON }, c.2.2 ++ r.2)
    else if led_cmd_matches 2 d0.msg_buffer len then
      let c := clear_led_blinking d0
      let r := led_gpio_output_ctl c.2.1.pin_num (!c.2.1.is_led_on)
      if r.1 ≠ ENONE then (r.1, c.2.1, c.2.2 ++ r.2)
      else
        let d2 := { c.2.1 with is_led_on := !c.2.1.is_led_on }
        ((len : Int),
          { d2 with led_state := get_led_state_from_physical_state d2 },
          c.2.2 ++ r.2)
    else if led_cmd_matches 3 d0.msg_buffer len then
      let c := clear_led_blinking d0
      match spawn with
      | some id =>
        ((len : Int),
          { c.2.1 with p_blink_thread := .live id, led_state := .LED_BLINK },
          c.2.2 ++ [.spawnTask id])
      | none => (-ENOMEM, { c.2.1 with p_blink_thread := .errPtr }, c.2.2)
    else (-EUNSUPCMD, d0, [])

/-- The whole dispatch test of led_write: some of the four commands
(word or numeral form) matches the first len bytes of the buffer. -/
def led_cmd_matched (buf : List Nat) (len : Nat) : Bool :=
  led_cmd_matches 0 buf len || led_cmd_matches 1 buf len ||
  led_cmd_matches 2 buf len || led_cmd_matches 3 buf len

theorem led_sanity_off :
    (led_write ⟨22, true, .LED_ON, [0, 0, 0, 0, 0, 0, 0], .null⟩
      [111, 102, 102] none).2.1.led_state = .LED_OFF := by
  decide

/-! ## Bit-level helper lemmas for the read-modify-write proofs -/

theorem testBit_mask32 (j : Nat) : Nat.testBit 0xFFFFFFFF j = decide (j < 32) := by
  have h : (0xFFFFFFFF : Nat) = 2 ^ 32 - 1 := by norm_num
  rw [h, Nat.testBit_two_pow_sub_one]

theorem testBit_seven (j : Nat) : Nat.testBit 7 j = decide (j < 3) := by
  have h : (7 : Nat) = 2 ^ 3 - 1 := by norm_num
  rw [h, Nat.testBit_two_pow_sub_one]

theorem testBit_of_lt_pow (x i j : Nat) (h : x < 2 ^ i) (hij : i ≤ j) :
    Nat.testBit x j = false :=
  Nat.testBit_lt_two_pow (lt_of_lt_of_le h (Nat.pow_le_pow_right (by norm_num) hij))

/-- A bit of the field-update word `(w &&& ~(7 << sh)) ||| (f << sh)`:
inside the field window it is a bit of f, outside (below bit 32) it is
the old bit of w. -/
theorem testBit_update_field (w f sh j : Nat) (hf : f < 8) (hj : j < 32) :
    Nat.testBit ((w &&& not32 (7 <<< sh)) ||| (f <<< sh)) j =
      if sh ≤ j ∧ j < sh + 3 then Nat.testBit f (j - sh) else Nat.testBit w j := by
  rw [not32, Nat.testBit_lor, Nat.testBit_land, Nat.testBit_xor,
    Nat.testBit_shiftLeft, Nat.testBit_shiftLeft, testBit_mask32, testBit_seven]
  rw [decide_eq_true hj]
  by_cases hge : sh ≤ j
  · rw [decide_eq_true (show j ≥ sh from hge)]
    by_cases hlt : j - sh < 3
    · rw [if_pos ⟨hge, by omega⟩, decide_eq_true hlt]
      simp
    · rw [if_neg (by omega), decide_eq_false hlt,
        testBit_of_lt_pow f 3 (j - sh) hf (by omega)]
      simp
  · rw [decide_eq_false (show ¬j ≥ sh from hge), if_neg (fun h => hge h.1)]
    simp

/-- Two words agreeing on bits sh..sh+2 have the same extracted 3-bit
field at sh. -/
theorem extract_field_congr (w1 w2 sh : Nat)
    (h : ∀ k, k < 3 → Nat.testBit w1 (sh + k) = Nat.testBit w2 (sh + k)) :
    (w1 >>> sh) &&& 7 = (w2 >>> sh) &&& 7 := by
  apply Nat.eq_of_testBit_eq
  intro j
  rw [Nat.testBit_land, Nat.testBit_land, Nat.testBit_shiftRight,
    Nat.testBit_shiftRight, testBit_seven]
  by_cases hj : j < 3
  · rw [h j hj]
  · simp [hj]

/-- Reading back the field just written yields the written code. -/
theorem extract_update_self (w f sh : Nat) (hf : f < 8) (hsh : sh + 3 ≤ 32) :
    (((w &&& not32 (7 <<< sh)) ||| (f <<< sh)) >>> sh) &&& 7 = f := by
  apply Nat.eq_of_testBit_eq
  intro j
  rw [Nat.testBit_land, Nat.testBit_shiftRight, testBit_seven]
  by_cases hj : j < 3
  · rw [testBit_update_field w f sh (sh + j) hf (by omega),
      if_pos ⟨Nat.le_add_right _ _, by omega⟩, Nat.add_sub_cancel_left,
      decide_eq_true hj, Bool.and_true]
  · have hfj : Nat.testBit f j = false := testBit_of_lt_pow f 3 j hf (by omega)
    simp [hj, hfj]

/-- A field disjoint from the written one is unchanged by the
read-modify-write. -/
theorem extract_update_other (w f sh sh' : Nat) (hf : f < 8) (h32 : sh' + 3 ≤ 32)
    (hdisj : sh' + 3 ≤ sh ∨ sh + 3 ≤ sh') :
    (((w &&& not32 (7 <<< sh)) ||| (f <<< sh)) >>> sh') &&& 7 = (w >>> sh') &&& 7 := by
  apply extract_field_congr
  intro k hk
  rw [testBit_update_field w f sh (sh' + k) hf (by omega)]
  have : ¬(sh ≤ sh' + k ∧ sh' + k < sh + 3) := by omega
  simp [this]

theorem valid_func_lt_8 (f : Nat) (h : gpio_is_valid_pin_func f = true) : f < 8 := by
  simp only [gpio_is_valid_pin_func, Bool.or_eq_true, beq_iff_eq] at h
  rcases h with ((((((h | h) | h) | h) | h) | h) | h) | h <;> subst h <;> decide

theorem valid_pin_iff (pin : Nat) :
    gpio_is_valid_pin pin = true ↔ MIN_PIN_NUM ≤ pin ∧ pin ≤ MAX_PIN_NUM := by
  simp [gpio_is_valid_pin]

theorem fselWord_set_same (s : GpioRegs) (idx v : Nat) :
    fselWord (setFselWord s idx v) idx = v := by
  rcases idx with _ | _ | idx <;> rfl

theorem fselWord_set_other (s : GpioRegs) (idx v idx' : Nat) (h : idx' ≠ idx)
    (hb : idx ≤ 2) (hb' : idx' ≤ 2) :
    fselWord (setFselWord s idx v) idx' = fselWord s idx' := by
  rcases idx with _ | _ | idx <;> rcases idx' with _ | _ | idx' <;>
    first
      | rfl
      | omega

/-- The state and status gpio_set_pin_function reaches for a valid pin
and function code. -/
theorem gpio_set_pin_function_valid (s : GpioRegs) (pin f : Nat)
    (h1 : MIN_PIN_NUM ≤ pin) (h2 : pin ≤ MAX_PIN_NUM)
    (hf : gpio_is_valid_pin_func f = true) :
    gpio_set_pin_function pin f s =
      (ENONE,
        setFselWord s (pin / 10)
          ((fselWord s (pin / 10) &&& not32 (7 <<< (pin % 10 * 3))) |||
            (f <<< (pin % 10 * 3))),
        [GpioWr.fsel (pin / 10)
          ((fselWord s (pin / 10) &&& not32 (7 <<< (pin % 10 * 3))) |||
            (f <<< (pin % 10 * 3)))]) := by
  have hvp : gpio_is_valid_pin pin = true := (valid_pin_iff pin).mpr ⟨h1, h2⟩
  have h2' : pin ≤ 27 := h2
  have hoff : ¬(GPFSEL_MAX_REG_OFFSET < pin / GPFSEL_GPIO_PINS_PER_REG) := by
    simp only [GPFSEL_MAX_REG_OFFSET, GPFSEL_GPIO_PINS_PER_REG, MAX_PIN_NUM]
    omega
  simp [gpio_set_pin_function, hvp, hf, hoff, GPFSEL_GPIO_PINS_PER_REG,
    GPFSEL_FIELD_BIT_WIDTH, GPFSEL_FIELD_MASK, GPFSEL_MAX_REG_OFFSET, MAX_PIN_NUM]
  omega

/-- C5: for every pin in [MIN_PIN, MAX_PIN] and every valid function
code, gpio_set_pin_function succeeds, writes the code into that pin's
3-bit function-select field (word pin / PINS_PER_WORD, bit offset
(pin % PINS_PER_WORD) * 3), and leaves the 3-bit fields of every other
pin of that register word — and every other GPFSEL word — unchanged. -/
theorem gpio_set_pin_function_field_frame (s : GpioRegs) (pin f : Nat)
    (h1 : MIN_PIN_NUM ≤ pin) (h2 : pin ≤ MAX_PIN_NUM)
    (hf : gpio_is_valid_pin_func f = true) :
    (gpio_set_pin_function pin f s).1 = ENONE ∧
    getPinFunc (gpio_set_pin_function pin f s).2.1 pin = f ∧
    (∀ q, q / GPFSEL_GPIO_PINS_PER_REG = pin / GPFSEL_GPIO_PINS_PER_REG →
      q ≠ pin → getPinFunc (gpio_set_pin_function pin f s).2.1 q = getPinFunc s q) ∧
    (∀ idx, idx ≤ GPFSEL_MAX_REG_OFFSET → idx ≠ pin / GPFSEL_GPIO_PINS_PER_REG →
      fselWord (gpio_set_pin_function pin f s).2.1 idx = fselWord s idx) := by
  have hrw := gpio_set_pin_function_valid s pin f h1 h2 hf
  have h1' : 2 ≤ pin := h1
  have h2' : pin ≤ 27 := h2
  have hf8 : f < 8 := valid_func_lt_8 f hf
  rw [hrw]
  refine ⟨rfl, ?_, ?_, ?_⟩
  · simp only [getPinFunc, GPFSEL_GPIO_PINS_PER_REG, GPFSEL_FIELD_BIT_WIDTH,
      GPFSEL_FIELD_MASK, fselWord_set_same]
    exact extract_update_self _ f _ hf8 (by omega)
  · intro q hq hqp
    have hq' : q / 10 = pin / 10 := hq
    have hmod : q % 10 ≠ pin % 10 := by omega
    simp only [getPinFunc, GPFSEL_GPIO_PINS_PER_REG, GPFSEL_FIELD_BIT_WIDTH,
      GPFSEL_FIELD_MASK, hq', fselWord_set_same]
    exact extract_update_other _ f _ _ hf8 (by omega) (by omega)
  · intro idx hb hne
    have hb' : idx ≤ 2 := hb
    exact fselWord_set_other s (pin / 10) _ idx hne (by omega) hb'

/-- C5 witness: pin 17 with function Alt5 (code 2) on a concrete register
state; pin 13 shares GPFSEL1 and keeps its field. -/
theorem gpio_set_pin_function_field_frame_witness :
    (gpio_set_pin_function 17 2 ⟨0, 0xFFFFFFFF, 0⟩).1 = ENONE ∧
    getPinFunc (gpio_set_pin_function 17 2 ⟨0, 0xFFFFFFFF, 0⟩).2.1 17 = 2 ∧
    getPinFunc (gpio_set_pin_function 17 2 ⟨0, 0xFFFFFFFF, 0⟩).2.1 13 =
      getPinFunc ⟨0, 0xFFFFFFFF, 0⟩ 13 ∧
    fselWord (gpio_set_pin_function 17 2 ⟨0, 0xFFFFFFFF, 0⟩).2.1 0 =
      fselWord ⟨0, 0xFFFFFFFF, 0⟩ 0 := by
  obtain ⟨ha, hb, hc, hd⟩ :=
    gpio_set_pin_function_field_frame ⟨0, 0xFFFFFFFF, 0⟩ 17 2 (by decide)
      (by decide) (by decide)
  exact ⟨ha, hb, hc 13 (by decide) (by decide), hd 0 (by decide) (by decide)⟩

/-- C9: for every pin outside [MIN_PIN, MAX_PIN], gpio_set_pin_function,
gpio_output_ctl and gpio_set_pin_to_output all return -EINVPIN, leave the
registers untouched and perform no register write. -/
theorem gpio_invalid_pin_no_write (s : GpioRegs) (pin f : Nat) (b : Bool)
    (hpin : pin < MIN_PIN_NUM ∨ MAX_PIN_NUM < pin) :
    gpio_set_pin_function pin f s = (-EINVPIN, s, []) ∧
    gpio_output_ctl pin b s = (-EINVPIN, s, []) ∧
    gpio_set_pin_to_output pin b s = (-EINVPIN, s, []) := by
  have hv : gpio_is_valid_pin pin = false := by
    simp only [gpio_is_valid_pin, MIN_PIN_NUM, MAX_PIN_NUM] at *
    simp only [Bool.and_eq_false_iff, decide_eq_false_iff_not]
    omega
  simp [gpio_set_pin_function, gpio_output_ctl, gpio_set_pin_to_output, hv]

/-- C9 witness: pin 28 (one above MAX_PIN_NUM). -/
theorem gpio_invalid_pin_no_write_witness :
    gpio_set_pin_function 28 1 ⟨1, 2, 3⟩ = (-EINVPIN, ⟨1, 2, 3⟩, []) ∧
    gpio_output_ctl 28 true ⟨1, 2, 3⟩ = (-EINVPIN, ⟨1, 2, 3⟩, []) ∧
    gpio_set_pin_to_output 28 true ⟨1, 2, 3⟩ = (-EINVPIN, ⟨1, 2, 3⟩, []) :=
  gpio_invalid_pin_no_write ⟨1, 2, 3⟩ 28 1 true (by decide)

/-- C10: for each PWM-capable pin (12/18 on channel 0, 13/19 on
channel 1), gpio_set_pin_to_pwm succeeds but writes GPIO_OUTPUT_FUNC (1)
into the pin's function-select field, not the alternate-function code
that gpio_determine_pwm_alt_func computes and validates (Alt0 = 4 for
pins 12/13, Alt5 = 2 for pins 18/19). -/
theorem gpio_set_pin_to_pwm_eq_set_output (s : GpioRegs) (pin : Nat)
    (hp : pin = 12 ∨ pin = 13 ∨ pin = 18 ∨ pin = 19) :
    gpio_set_pin_to_pwm pin s = gpio_set_pin_function pin GPIO_OUTPUT_FUNC s := by
  rcases hp with h | h | h | h <;> subst h <;>
    simp only [gpio_set_pin_to_pwm, GPIO_OUTPUT_FUNC, GPFSEL_OUTPUT] <;>
    rw [gpio_set_pin_function_valid s _ 1 (by decide) (by decide) (by decide)] <;>
    simp [gpio_is_pin_pwm, gpio_determine_pwm_alt_func, GPIO_INVALID_FUNC,
      GPIO_ALT_FUNC_0, GPIO_ALT_FUNC_5, GPFSEL_ALT_FUNC_0, GPFSEL_ALT_FUNC_5,
      ENONE]

theorem gpio_set_pin_to_pwm_writes_output_func (s : GpioRegs) (pin : Nat)
    (hp : pin = 12 ∨ pin = 13 ∨ pin = 18 ∨ pin = 19) :
    (gpio_set_pin_to_pwm pin s).1 = ENONE ∧
    getPinFunc (gpio_set_pin_to_pwm pin s).2.1 pin = GPIO_OUTPUT_FUNC ∧
    gpio_determine_pwm_alt_func pin =
      (if pin = 12 ∨ pin = 13 then GPIO_ALT_FUNC_0 else GPIO_ALT_FUNC_5) ∧
    gpio_determine_pwm_alt_func pin ≠ GPIO_OUTPUT_FUNC := by
  rw [gpio_set_pin_to_pwm_eq_set_output s pin hp, GPIO_OUTPUT_FUNC, GPFSEL_OUTPUT]
  have hpin1 : MIN_PIN_NUM ≤ pin := by rcases hp with h | h | h | h <;> subst h <;> decide
  have hpin2 : pin ≤ MAX_PIN_NUM := by rcases hp with h | h | h | h <;> subst h <;> decide
  rw [gpio_set_pin_function_valid s pin 1 hpin1 hpin2 (by decide)]
  refine ⟨rfl, ?_, ?_, ?_⟩
  · simp only [getPinFunc, GPFSEL_GPIO_PINS_PER_REG, GPFSEL_FIELD_BIT_WIDTH,
      GPFSEL_FIELD_MASK, fselWord_set_same]
    exact extract_update_self _ 1 _ (by decide) (by rcases hp with h | h | h | h <;> subst h <;> decide)
  · rcases hp with h | h | h | h <;> subst h <;> decide
  · rcases hp with h | h | h | h <;> subst h <;> decide

/-- C10 witness: pin 18 on a concrete register state. -/
theorem gpio_set_pin_to_pwm_writes_output_func_witness :
    (gpio_set_pin_to_pwm 18 ⟨0, 0xFFFFFFFF, 0⟩).1 = ENONE ∧
    getPinFunc (gpio_set_pin_to_pwm 18 ⟨0, 0xFFFFFFFF, 0⟩).2.1 18 = GPIO_OUTPUT_FUNC ∧
    gpio_determine_pwm_alt_func 18 = GPIO_ALT_FUNC_5 ∧
    gpio_determine_pwm_alt_func 18 ≠ GPIO_OUTPUT_FUNC := by
  obtain ⟨ha, hb, hc, hd⟩ :=
    gpio_set_pin_to_pwm_writes_output_func ⟨0, 0xFFFFFFFF, 0⟩ 18 (by decide)
  exact ⟨ha, hb, by decide, hd⟩

/-- C1: the intended duty formula (0 ↦ 0, 100 ↦ range, else
floor(range/100)·percent) is reached only when the range value is
exactly 4000, because the guard feeds the range to validate_cycle_freq;
for the driver's real range 4800 (and for 100) every percent yields 0. -/
theorem calc_duty_data_guard_bug :
    calc_pwm_data_val_from_percent 50 4800 = 0 ∧
    calc_pwm_data_val_from_percent 33 100 = 0 ∧
    calc_pwm_data_val_from_percent 100 4800 = 0 ∧
    calc_pwm_data_val_from_percent 0 4800 = 0 ∧
    calc_pwm_data_val_from_percent 50 4000 = 2000 ∧
    calc_pwm_data_val_from_percent 100 4000 = 4000 := by
  decide

/-- C2: pwm_set_duty_cycle's inverted guard turns every channel away
with -EINVFUNC — valid channels at the entry check, the invalid channel
inside pwm_get_channel_range_val — and never writes a data register. -/
theorem pwm_set_duty_cycle_always_fails :
    validate_pwm_channel .PWM_0 = true ∧
    pwm_set_duty_cycle .PWM_0 50 ⟨0x8001, 4800, 111, 32, 0⟩ =
      (-EINVFUNC, ⟨0x8001, 4800, 111, 32, 0⟩, []) ∧
    pwm_set_duty_cycle .PWM_1 75 ⟨0, 32, 0, 4800, 7⟩ =
      (-EINVFUNC, ⟨0, 32, 0, 4800, 7⟩, []) ∧
    pwm_set_duty_cycle .NOT_PWM 50 ⟨0, 32, 0, 32, 0⟩ =
      (-EINVFUNC, ⟨0, 32, 0, 32, 0⟩, []) := by
  decide

theorem testBit_FFFFFF00 (p : Nat) :
    Nat.testBit 0xFFFFFF00 p = (decide (8 ≤ p) && decide (p < 32)) := by
  have h : (0xFFFFFF00 : Nat) = (2 ^ 24 - 1) <<< 8 := by
    norm_num [Nat.shiftLeft_eq]
  rw [h, Nat.testBit_shiftLeft, Nat.testBit_two_pow_sub_one]
  by_cases h8 : 8 ≤ p
  · have hiff : p - 8 < 24 ↔ p < 32 := by omega
    simp [h8, hiff]
  · simp [h8, show ¬p ≥ 8 from h8]

theorem testBit_one (p : Nat) : Nat.testBit 1 p = decide (p < 1) := by
  cases p with
  | zero => rfl
  | succ n =>
    rw [testBit_of_lt_pow 1 1 (n + 1) (by norm_num) (by omega)]
    simp

/-- Bit 0 of the control word is set after `ctl |= PWEN_1`. -/
theorem ctl_enable_bit (a : Nat) : (a ||| 1) &&& 1 = 1 := by
  apply Nat.eq_of_testBit_eq
  intro j
  rw [Nat.testBit_land, Nat.testBit_lor, testBit_one]
  by_cases hj : j < 1
  · simp [hj]
  · simp [hj]

/-- Bits 1..7 of `(x &&& 0xFFFFFF00) ||| 1` are clear. -/
theorem ctl_low_bits_cleared (x : Nat) :
    (((x &&& 0xFFFFFF00) ||| 1) >>> 1) &&& 0x7F = 0 := by
  apply Nat.eq_of_testBit_eq
  intro j
  rw [Nat.testBit_land, Nat.testBit_shiftRight, Nat.testBit_lor, Nat.testBit_land,
    testBit_FFFFFF00, testBit_one, Nat.zero_testBit]
  have h7F : Nat.testBit 0x7F j = decide (j < 7) := by
    have h : (0x7F : Nat) = 2 ^ 7 - 1 := by norm_num
    rw [h, Nat.testBit_two_pow_sub_one]
  rw [h7F]
  by_cases hj : j < 7
  · have hn8 : ¬8 ≤ 1 + j := by omega
    have hn1 : ¬1 + j < 1 := by omega
    simp [hn8, hn1]
  · simp [hj]

/-- Bits 8 and above of `(x &&& 0xFFFFFF00) ||| 1` agree with x when x
is a 32-bit value. -/
theorem ctl_high_bits_kept (x : Nat) (h : x < 2 ^ 32) :
    ((x &&& 0xFFFFFF00) ||| 1) >>> 8 = x >>> 8 := by
  apply Nat.eq_of_testBit_eq
  intro j
  rw [Nat.testBit_shiftRight, Nat.testBit_shiftRight, Nat.testBit_lor,
    Nat.testBit_land, testBit_FFFFFF00, testBit_one]
  have h8 : 8 ≤ 8 + j := by omega
  have hn1 : ¬8 + j < 1 := by omega
  by_cases h32 : 8 + j < 32
  · simp [h8, h32, hn1]
  · have hx : Nat.testBit x (8 + j) = false := testBit_of_lt_pow x 32 (8 + j) h (by omega)
    simp [h32, hn1, hx]

/-- C4: configuring channel 0 with duty 25 %, 4 kHz, enabled: the range
register becomes clockRate/frequency = 4800, the data register becomes
exactly calc_pwm_data_val_from_percent 25 4800, channel 0's enable bit
is set, only the 8 channel-0 control bits were cleared (bits 8..31 are
untouched for a 32-bit control word), and channel 1's registers are
untouched; reading back data/range/enable reproduces those values. -/
theorem pwm_init_user_device_roundtrip (s : PwmRegs) (h : s.ctl < 2 ^ 32) :
    (pwm_init_user_device .PWM_0 25 4000 true s).1 = ENONE ∧
    (pwm_init_user_device .PWM_0 25 4000 true s).2.1.rng_1 = PWM_CLK_RATE / 4000 ∧
    (pwm_init_user_device .PWM_0 25 4000 true s).2.1.rng_1 = 4800 ∧
    (pwm_init_user_device .PWM_0 25 4000 true s).2.1.dat_1 =
      calc_pwm_data_val_from_percent 25 4800 ∧
    (pwm_init_user_device .PWM_0 25 4000 true s).2.1.ctl =
      ((s.ctl &&& 0xFFFFFF00) ||| PWEN_1_FIELD) ∧
    (pwm_init_user_device .PWM_0 25 4000 true s).2.1.ctl &&& PWEN_1_FIELD =
      PWEN_1_FIELD ∧
    ((pwm_init_user_device .PWM_0 25 4000 true s).2.1.ctl >>> 1) &&& 0x7F = 0 ∧
    (pwm_init_user_device .PWM_0 25 4000 true s).2.1.ctl >>> 8 = s.ctl >>> 8 ∧
    (pwm_init_user_device .PWM_0 25 4000 true s).2.1.rng_2 = s.rng_2 ∧
    (pwm_init_user_device .PWM_0 25 4000 true s).2.1.dat_2 = s.dat_2 := by
  have hred : pwm_init_user_device .PWM_0 25 4000 true s =
      (ENONE, { ctl := (s.ctl &&& 0xFFFFFF00) ||| 1, rng_1 := 4800,
                dat_1 := calc_pwm_data_val_from_percent 25 4800,
                rng_2 := s.rng_2, dat_2 := s.dat_2 },
        [.wCtl, .wDat1, .wRng1, .wCtl]) := by
    simp [pwm_init_user_device, calc_pwm_range_val_from_cycle_freq,
      validate_cycle_freq, PWM_FREQ_4_kHZ, PWM_CLK_RATE, pwm_init_pwm_channel,
      PWEN_1_FIELD]
  rw [hred, PWEN_1_FIELD]
  exact ⟨rfl, rfl, rfl, rfl, rfl, ctl_enable_bit _, ctl_low_bits_cleared s.ctl,
    ctl_high_bits_kept s.ctl h, rfl, rfl⟩

/-- C4 witness: a concrete control word with channel-1 bits set; bits
8..31 survive, the low byte becomes exactly the enable bit. -/
theorem pwm_init_user_device_roundtrip_witness :
    (pwm_init_user_device .PWM_0 25 4000 true ⟨0x81AA, 1, 2, 3, 4⟩).1 = ENONE ∧
    (pwm_init_user_device .PWM_0 25 4000 true ⟨0x81AA, 1, 2, 3, 4⟩).2.1.rng_1 = 4800 ∧
    (pwm_init_user_device .PWM_0 25 4000 true ⟨0x81AA, 1, 2, 3, 4⟩).2.1.dat_1 =
      calc_pwm_data_val_from_percent 25 4800 ∧
    (pwm_init_user_device .PWM_0 25 4000 true ⟨0x81AA, 1, 2, 3, 4⟩).2.1.ctl &&&
      PWEN_1_FIELD = PWEN_1_FIELD ∧
    (pwm_init_user_device .PWM_0 25 4000 true ⟨0x81AA, 1, 2, 3, 4⟩).2.1.ctl >>> 8 =
      (0x81AA : Nat) >>> 8 := by
  obtain ⟨h1, h2, h3, h4, h5, h6, h7, h8, h9, h10⟩ :=
    pwm_init_user_device_roundtrip ⟨0x81AA, 1, 2, 3, 4⟩ (by norm_num)
  exact ⟨h1, h3, h4, h6, h8⟩

/-- C8: pwm_driver_exit on a live mapping emits the unmap first and only
then performs the six reset register writes, so the trace violates the
writes-only-while-mapped invariant. -/
theorem pwm_driver_exit_writes_after_unmap :
    (pwm_driver_exit ⟨true, ⟨0x8101, 7, 8, 9, 10⟩⟩).2 =
      [.unmap, .wCtl, .wDat1, .wRng1, .wCtl, .wDat2, .wRng2] ∧
    writesOnlyWhileMapped true (pwm_driver_exit ⟨true, ⟨0x8101, 7, 8, 9, 10⟩⟩).2 =
      false := by
  decide

theorem led_gpio_output_ctl_status (p : Nat) (b : Bool) :
    (led_gpio_output_ctl p b).1 = ENONE ∨ (led_gpio_output_ctl p b).1 = -EINVPIN := by
  by_cases hv : gpio_is_valid_pin p <;>
    cases b <;>
    simp [led_gpio_output_ctl, gpio_output_ctl, hv]

theorem led_write_unmatched_eq (d : LedDev) (bytes : List Nat) (spawn : Option Nat)
    (hlong : ¬MSG_BUF_MAX_SIZE < bytes.length) (hnil : bytes ≠ [])
    (hm : led_cmd_matched (bytes ++ d.msg_buffer.drop bytes.length) bytes.length =
      false) :
    led_write d bytes spawn =
      (-EUNSUPCMD, { d with msg_buffer := bytes ++ d.msg_buffer.drop bytes.length },
        []) := by
  have hlen0 : bytes.length ≠ 0 := by
    cases bytes with
    | nil => exact absurd rfl hnil
    | cons a l => simp
  simp only [led_cmd_matched, Bool.or_eq_false_iff] at hm
  rw [led_write]
  simp only [if_neg hlong, if_neg hlen0]
  simp [hm.1.1.1, hm.1.1.2, hm.1.2, hm.2]

theorem led_write_matched_not_unsup (d : LedDev) (bytes : List Nat)
    (spawn : Option Nat) (hlong : ¬MSG_BUF_MAX_SIZE < bytes.length)
    (hnil : bytes ≠ [])
    (hm : led_cmd_matched (bytes ++ d.msg_buffer.drop bytes.length) bytes.length =
      true) :
    (led_write d bytes spawn).1 ≠ -EUNSUPCMD := by
  have hlen0 : bytes.length ≠ 0 := by
    cases bytes with
    | nil => exact absurd rfl hnil
    | cons a l => simp
  have hlpos : (1 : Int) ≤ (bytes.length : Int) := by
    omega
  rw [led_write]
  simp only [if_neg hlong, if_neg hlen0]
  by_cases h0 : led_cmd_matches 0
      ({ d with msg_buffer := bytes ++ d.msg_buffer.drop bytes.length }).msg_buffer
      bytes.length = true
  · simp only [h0, if_true]
    rcases led_gpio_output_ctl_status
        (clear_led_blinking
          { d with msg_buffer := bytes ++ d.msg_buffer.drop bytes.length }).2.1.pin_num
        false with hs | hs
    · simp [hs, ENONE, EUNSUPCMD]
    · simp [hs, ENONE, EUNSUPCMD, EINVPIN]
  · simp only [h0, if_false]
    by_cases h1 : led_cmd_matches 1
        ({ d with msg_buffer := bytes ++ d.msg_buffer.drop bytes.length }).msg_buffer
        bytes.length = true
    · simp only [h1, if_true]
      rcases led_gpio_output_ctl_status
          (clear_led_blinking
            { d with msg_buffer := bytes ++ d.msg_buffer.drop bytes.length }).2.1.pin_num
          true with hs | hs
      · simp [hs, ENONE, EUNSUPCMD]
      · simp [hs, ENONE, EUNSUPCMD, EINVPIN]
    · simp only [h1, if_false]
      by_cases h2 : led_cmd_matches 2
          ({ d with msg_buffer := bytes ++ d.msg_buffer.drop bytes.length }).msg_buffer
          bytes.length = true
      · simp only [h2, if_true]
        rcases led_gpio_output_ctl_status
            (clear_led_blinking
              { d with msg_buffer := bytes ++ d.msg_buffer.drop bytes.length }).2.1.pin_num
            (!(clear_led_blinking
              { d with msg_buffer := bytes ++ d.msg_buffer.drop bytes.length }).2.1.is_led_on)
            with hs | hs
        · simp [hs, ENONE, EUNSUPCMD]
        · simp [hs, ENONE, EUNSUPCMD, EINVPIN]
      · simp only [h2, if_false]
        have h3 : led_cmd_matches 3
            ({ d with msg_buffer := bytes ++ d.msg_buffer.drop bytes.length }).msg_buffer
            bytes.length = true := by
          simp only [led_cmd_matched, Bool.or_eq_true] at hm
          rcases hm with ((hm | hm) | hm) | hm
          · exact absurd hm h0
          · exact absurd hm h1
          · exact absurd hm h2
          · exact hm
        simp only [h3, if_true]
        cases spawn with
        | some id =>
          simp [ENONE, EUNSUPCMD]
        | none =>
          simp [ENONE, EUNSUPCMD, ENOMEM]

/-- C3 counterexample: the one-byte input "o" (0x6F) is not
case-insensitively equal to any of the eight commands, yet led_write
accepts it (returns its length, 1, not the unsupported-command error)
and performs the OFF action, because strncasecmp is bounded by the input
length and so matches proper prefixes of "OFF". -/
theorem led_write_accepts_lone_o :
    ((led_write_word_cmds ++ led_write_num_cmds).all
      (fun c => !([111].map c_tolower == c.map c_tolower))) = true ∧
    (led_write ⟨22, true, .LED_ON, [0, 0, 0, 0, 0, 0, 0], .null⟩ [111] none).1 = 1 ∧
    (led_write ⟨22, true, .LED_ON, [0, 0, 0, 0, 0, 0, 0], .null⟩ [111] none).1 ≠
      -EUNSUPCMD ∧
    (led_write ⟨22, true, .LED_ON, [0, 0, 0, 0, 0, 0, 0], .null⟩
      [111] none).2.1.led_state = .LED_OFF ∧
    (led_write ⟨22, true, .LED_ON, [0, 0, 0, 0, 0, 0, 0], .null⟩
      [111] none).2.1.is_led_on = false := by
  decide

/-- C3 (amended): an over-length input is rejected with -EMSGSIZE before
any mutation; an empty input returns 0 with no action and no error; a
non-empty input of acceptable length is rejected with -EUNSUPCMD — with
the on/off flag, state and thread handle unchanged (only the message
buffer is filled) — exactly when the length-bounded case-insensitive
strncasecmp dispatch matches none of OFF/ON/TOGGLE/BLINK/0/1/2/3; and
the unsupported-command error is returned precisely in that case. -/
theorem led_write_dispatch (d : LedDev) (bytes : List Nat) (spawn : Option Nat) :
    (MSG_BUF_MAX_SIZE < bytes.length → led_write d bytes spawn = (-EMSGSIZE, d, [])) ∧
    (bytes = [] → led_write d bytes spawn = (0, d, [])) ∧
    (bytes ≠ [] → bytes.length ≤ MSG_BUF_MAX_SIZE →
      led_cmd_matched (bytes ++ d.msg_buffer.drop bytes.length) bytes.length = false →
      led_write d bytes spawn =
        (-EUNSUPCMD, { d with msg_buffer := bytes ++ d.msg_buffer.drop bytes.length },
          [])) ∧
    ((led_write d bytes spawn).1 = -EUNSUPCMD ↔
      bytes ≠ [] ∧ bytes.length ≤ MSG_BUF_MAX_SIZE ∧
      led_cmd_matched (bytes ++ d.msg_buffer.drop bytes.length) bytes.length = false) := by
  by_cases hlong : MSG_BUF_MAX_SIZE < bytes.length
  · have hr : led_write d bytes spawn = (-EMSGSIZE, d, []) := by
      rw [led_write]
      simp [hlong]
    refine ⟨fun _ => hr, ?_, ?_, ?_⟩
    · intro h
      subst h
      simp [MSG_BUF_MAX_SIZE] at hlong
    · intro _ hle _
      exact absurd hlong (by omega)
    · rw [hr]
      constructor
      · intro h
        simp [EMSGSIZE, EUNSUPCMD] at h
      · rintro ⟨-, hle, -⟩
        exact absurd hlong (by omega)
  · by_cases hnil : bytes = []
    · have hr : led_write d bytes spawn = (0, d, []) := by
        subst hnil
        rw [led_write]
        simp [MSG_BUF_MAX_SIZE]
      refine ⟨fun hl => absurd hl hlong, fun _ => hr, fun hne _ _ => absurd hnil hne, ?_⟩
      rw [hr]
      constructor
      · intro h
        simp [EUNSUPCMD] at h
      · rintro ⟨hne, -, -⟩
        exact absurd hnil hne
    · by_cases hm : led_cmd_matched (bytes ++ d.msg_buffer.drop bytes.length)
          bytes.length = true
      · have hkey := led_write_matched_not_unsup d bytes spawn hlong hnil hm
        refine ⟨fun hl => absurd hl hlong, fun h => absurd h hnil, ?_, ?_⟩
        · intro _ _ hmf
          rw [hm] at hmf
          exact absurd hmf (by decide)
        · constructor
          · intro h
            exact absurd h hkey
          · rintro ⟨-, -, hmf⟩
            rw [hm] at hmf
            exact absurd hmf (by decide)
      · have hmf : led_cmd_matched (bytes ++ d.msg_buffer.drop bytes.length)
            bytes.length = false := by
          cases hq : led_cmd_matched (bytes ++ d.msg_buffer.drop bytes.length)
              bytes.length
          · rfl
          · exact absurd hq hm
        have hr := led_write_unmatched_eq d bytes spawn hlong hnil hmf
        refine ⟨fun hl => absurd hl hlong, fun h => absurd h hnil, fun _ _ _ => hr, ?_⟩
        rw [hr]
        exact ⟨fun _ => ⟨hnil, by omega, hmf⟩, fun _ => rfl⟩

/-- C7: when the hardware write inside the blink loop fails — which in
this driver happens exactly when the device's pin is invalid — the task
stops its loop at once (its trace holds no gpio write, only its own exit
event), returns the failure status, clears the thread pointer, and sets
led_state from the last known physical level instead of forcing LED_OFF;
and driving the output low would be impossible in that situation (the
same gpio_output_ctl call fails too), so none is attempted. -/
theorem led_blink_error_exit (d : LedDev) (n : Nat)
    (hpin : gpio_is_valid_pin d.pin_num = false) (hn : 0 < n) :
    (led_blink n d).1 = -EINVPIN ∧
    (led_blink n d).2.1.p_blink_thread = .null ∧
    (led_blink n d).2.1.led_state = get_led_state_from_physical_state d ∧
    (led_blink n d).2.1.is_led_on = d.is_led_on ∧
    (led_blink n d).2.2 = blink_end_evs d ∧
    (led_gpio_output_ctl d.pin_num false).1 ≠ ENONE := by
  obtain ⟨m, rfl⟩ : ∃ m, n = m + 1 := ⟨n - 1, by omega⟩
  simp [led_blink, led_blink_body, led_gpio_output_ctl, gpio_output_ctl, hpin,
    ENONE, EINVPIN]

/-- C7 witness: a blinking device on the invalid pin 99 whose LED is
currently on ends in state LED_ON (not LED_OFF), with the handle
cleared, the -EINVPIN status returned, and no gpio write in its trace. -/
theorem led_blink_error_exit_witness :
    (led_blink 5 ⟨99, true, .LED_BLINK, [0, 0, 0, 0, 0, 0, 0], .live 3⟩).1 =
      -EINVPIN ∧
    (led_blink 5 ⟨99, true, .LED_BLINK, [0, 0, 0, 0, 0, 0, 0],
      .live 3⟩).2.1.p_blink_thread = .null ∧
    (led_blink 5 ⟨99, true, .LED_BLINK, [0, 0, 0, 0, 0, 0, 0],
      .live 3⟩).2.1.led_state = .LED_ON ∧
    (led_blink 5 ⟨99, true, .LED_BLINK, [0, 0, 0, 0, 0, 0, 0], .live 3⟩).2.2 =
      [.endTask 3] := by
  obtain ⟨h1, h2, h3, h4, h5, h6⟩ :=
    led_blink_error_exit ⟨99, true, .LED_BLINK, [0, 0, 0, 0, 0, 0, 0], .live 3⟩ 5
      (by decide) (by decide)
  exact ⟨h1, h2, h3.trans (by decide), h5.trans (by decide)⟩

/-! ## The blinking invariant (C6) -/

/-- The spec's invariant: the device is in the blink state exactly when
a live blink-thread handle exists. -/
def ledInv (d : LedDev) : Prop :=
  d.led_state = .LED_BLINK ↔ isLive d.p_blink_thread = true

/-- The number of live blink threads a device owns (0 or 1, by the shape
of the handle field). -/
def tasksLive (d : LedDev) : Nat :=
  if isLive d.p_blink_thread then 1 else 0

/-- Fold a trace over the live-thread counter: spawnTask is a thread
birth, endTask a thread exit.  Returns (final count, maximum count
reached, the starting count included). -/
def liveRun (n : Nat) : List LedEv → Nat × Nat
  | [] => (n, n)
  | e :: es =>
    let n' :=
      match e with
      | .spawnTask _ => n + 1
      | .endTask _ => n - 1
      | .gpio _ => n
    let r := liveRun n' es
    (r.1, max n r.2)

def maxLive (n : Nat) (evs : List LedEv) : Nat := (liveRun n evs).2

/-- One atomic step of a logical LED device: a led_write call (commands
are serialized per device by the single foreground context), or one
iteration of a live blink thread's loop. -/
inductive LedStep : LedDev → List LedEv → LedDev → Prop where
  | write (bytes : List Nat) (spawn : Option Nat) (d : LedDev) :
      LedStep d (led_write d bytes spawn).2.2 (led_write d bytes spawn).2.1
  | tick (d : LedDev) (hlive : isLive d.p_blink_thread = true) :
      LedStep d (led_blink_body d).2.2 (led_blink_body d).2.1

theorem le_liveRun_max (n : Nat) (ys : List LedEv) : n ≤ (liveRun n ys).2 := by
  cases ys with
  | nil => simp [liveRun]
  | cons e es =>
    simp only [liveRun]
    exact Nat.le_max_left _ _

theorem liveRun_append (n : Nat) (xs ys : List LedEv) :
    liveRun n (xs ++ ys) =
      ((liveRun (liveRun n xs).1 ys).1,
        max (liveRun n xs).2 (liveRun (liveRun n xs).1 ys).2) := by
  induction xs generalizing n with
  | nil =>
    simp only [List.nil_append, liveRun]
    rw [Nat.max_eq_right (le_liveRun_max n ys)]
  | cons e es ih =>
    simp only [List.cons_append, liveRun, List.append_eq, ih]
    rw [Nat.max_assoc]

theorem physical_ne_blink (d : LedDev) :
    get_led_state_from_physical_state d ≠ .LED_BLINK := by
  by_cases h : d.is_led_on <;> simp [get_led_state_from_physical_state, h]

/-- What clear_led_blinking guarantees from any state satisfying the
invariant: the invariant still holds, no live thread remains, the state
is no longer LED_BLINK, the flags follow the join's physical outcome,
and the trace's live-thread count falls to 0 without ever exceeding 1. -/
theorem clear_led_blinking_spec (d : LedDev) (hinv : ledInv d) :
    ledInv (clear_led_blinking d).2.1 ∧
    isLive (clear_led_blinking d).2.1.p_blink_thread = false ∧
    (clear_led_blinking d).2.1.led_state ≠ .LED_BLINK ∧
    (liveRun (tasksLive d) (clear_led_blinking d).2.2).1 = 0 ∧
    maxLive (tasksLive d) (clear_led_blinking d).2.2 ≤ 1 ∧
    (clear_led_blinking d).2.1.pin_num = d.pin_num := by
  by_cases hb : d.led_state = .LED_BLINK
  · have hl : isLive d.p_blink_thread = true := hinv.mp hb
    cases hp : d.p_blink_thread with
    | null => rw [hp] at hl; exact absurd hl (by decide)
    | errPtr => rw [hp] at hl; exact absurd hl (by decide)
    | live id =>
      by_cases hv : gpio_is_valid_pin d.pin_num <;>
        by_cases ho : d.is_led_on <;>
        simp [clear_led_blinking, hb, hp, led_blink, led_blink_exit,
          led_gpio_output_ctl, gpio_output_ctl, hv, ho, blink_end_evs, ledInv,
          isLive, tasksLive, liveRun, maxLive, ENONE, EINVPIN,
          get_led_state_from_physical_state]
  · have hnl : isLive d.p_blink_thread = false := by
      cases hq : isLive d.p_blink_thread
      · rfl
      · exact absurd (hinv.mpr hq) hb
    simp [clear_led_blinking, hb, ledInv, hinv, hnl, tasksLive, liveRun, maxLive]

theorem tasksLive_le_one (d : LedDev) : tasksLive d ≤ 1 := by
  rw [tasksLive]
  split <;> omega


/-- C6: over atomic device steps (a led_write call, or one loop
iteration of a live blink thread), the invariant "state is LED_BLINK iff
a live thread handle exists" is preserved; the trace-level count of live
blink threads never exceeds one within a step — in particular a second
"blink" joins the old thread (endTask) before kthread_run (spawnTask) —
and the count ends the step equal to the device's handle count. -/
theorem led_single_blink_task (d d' : LedDev) (evs : List LedEv)
    (hinv : ledInv d) (hstep : LedStep d evs d') :
    ledInv d' ∧ maxLive (tasksLive d) evs ≤ 1 ∧
    (liveRun (tasksLive d) evs).1 = tasksLive d' := by
  rcases hstep with ⟨bytes, spawn, d⟩ | ⟨d, hlive⟩
  case tick =>
    cases hp : d.p_blink_thread with
    | null => rw [hp] at hlive; exact absurd hlive (by decide)
    | errPtr => rw [hp] at hlive; exact absurd hlive (by decide)
    | live id =>
      by_cases hv : gpio_is_valid_pin d.pin_num <;>
        by_cases ho : d.is_led_on <;>
        simp_all [led_blink_body, led_gpio_output_ctl, gpio_output_ctl, hv, ho,
          blink_end_evs, hp, ledInv, isLive, tasksLive, liveRun, maxLive, ENONE,
          EINVPIN, get_led_state_from_physical_state]
  case write =>
    by_cases hlong : MSG_BUF_MAX_SIZE < bytes.length
    · have hr : led_write d bytes spawn = (-EMSGSIZE, d, []) := by
        rw [led_write]
        simp [hlong]
      rw [hr]
      exact ⟨hinv, by simpa [maxLive, liveRun] using tasksLive_le_one d,
        by simp [liveRun]⟩
    · by_cases hnil : bytes.length = 0
      · have hr : led_write d bytes spawn = (0, d, []) := by
          rw [led_write]
          simp [hlong, hnil]
        rw [hr]
        exact ⟨hinv, by simpa [maxLive, liveRun] using tasksLive_le_one d,
          by simp [liveRun]⟩
      · have hinv0 : ledInv { d with
            msg_buffer := bytes ++ d.msg_buffer.drop bytes.length } := by
          simpa [ledInv] using hinv
        obtain ⟨c1, c2, c3, c4, c5, c6⟩ :=
          clear_led_blinking_spec
            { d with msg_buffer := bytes ++ d.msg_buffer.drop bytes.length } hinv0
        have htl : tasksLive { d with
            msg_buffer := bytes ++ d.msg_buffer.drop bytes.length } =
            tasksLive d := by
          simp [tasksLive]
        have hpin : (clear_led_blinking { d with
            msg_buffer := bytes ++ d.msg_buffer.drop bytes.length }).2.1.pin_num =
            d.pin_num := by
          simpa using c6
        rw [htl] at c4 c5
        rw [maxLive] at c5
        rw [led_write]
        simp only [if_neg hlong, if_neg hnil]
        by_cases h0 : led_cmd_matches 0
            ({ d with msg_buffer := bytes ++ d.msg_buffer.drop bytes.length }).msg_buffer
            bytes.length = true
        · rw [if_pos h0, hpin]
          by_cases hv : gpio_is_valid_pin d.pin_num
          · simp only [led_gpio_output_ctl, gpio_output_ctl, hv]
            simp [ENONE, EINVPIN]
            refine ⟨by simp [ledInv, c2], ?_, ?_⟩
            · rw [maxLive, liveRun_append, c4]
              simp only [liveRun]
              omega
            · rw [liveRun_append, c4]
              simp [liveRun, tasksLive, c2]
          · simp only [led_gpio_output_ctl, gpio_output_ctl, hv]
            simp [ENONE, EINVPIN]
            refine ⟨c1, ?_, ?_⟩
            · simpa [maxLive] using c5
            · rw [c4]
              simp [tasksLive, c2]
        · rw [if_neg h0]
          by_cases h1 : led_cmd_matches 1
              ({ d with msg_buffer := bytes ++ d.msg_buffer.drop bytes.length }).msg_buffer
              bytes.length = true
          · rw [if_pos h1, hpin]
            by_cases hv : gpio_is_valid_pin d.pin_num
            · simp only [led_gpio_output_ctl, gpio_output_ctl, hv]
              simp [ENONE, EINVPIN]
              refine ⟨by simp [ledInv, c2], ?_, ?_⟩
              · rw [maxLive, liveRun_append, c4]
                simp only [liveRun]
                omega
              · rw [liveRun_append, c4]
                simp [liveRun, tasksLive, c2]
            · simp only [led_gpio_output_ctl, gpio_output_ctl, hv]
              simp [ENONE, EINVPIN]
              refine ⟨c1, ?_, ?_⟩
              · simpa [maxLive] using c5
              · rw [c4]
                simp [tasksLive, c2]
          · rw [if_neg h1]
            by_cases h2 : led_cmd_matches 2
                ({ d with msg_buffer := bytes ++ d.msg_buffer.drop bytes.length }).msg_buffer
                bytes.length = true
            · rw [if_pos h2, hpin]
              by_cases hv : gpio_is_valid_pin d.pin_num
              · simp only [led_gpio_output_ctl, gpio_output_ctl, hv]
                cases hob : (clear_led_blinking { d with
                    msg_buffer := bytes ++ d.msg_buffer.drop bytes.length }).2.1.is_led_on <;>
                  simp [hob, ENONE, EINVPIN] <;>
                  refine ⟨by simp [ledInv, c2, get_led_state_from_physical_state], ?_, ?_⟩
                · rw [maxLive, liveRun_append, c4]
                  simp only [liveRun]
                  omega
                · rw [liveRun_append, c4]
                  simp [liveRun, tasksLive, c2]
                · rw [maxLive, liveRun_append, c4]
                  simp only [liveRun]
                  omega
                · rw [liveRun_append, c4]
                  simp [liveRun, tasksLive, c2]
              · simp only [led_gpio_output_ctl, gpio_output_ctl, hv]
                simp [ENONE, EINVPIN]
                refine ⟨c1, ?_, ?_⟩
                · simpa [maxLive] using c5
                · rw [c4]
                  simp [tasksLive, c2]
            · rw [if_neg h2]
              by_cases h3 : led_cmd_matches 3
                  ({ d with msg_buffer := bytes ++ d.msg_buffer.drop bytes.length }).msg_buffer
                  bytes.length = true
              · rw [if_pos h3]
                cases spawn with
                | some id =>
                  refine ⟨by simp [ledInv, isLive], ?_, ?_⟩
                  · rw [maxLive, liveRun_append, c4]
                    simp only [liveRun]
                    omega
                  · rw [liveRun_append, c4]
                    simp [liveRun, tasksLive, isLive]
                | none =>
                  refine ⟨?_, ?_, ?_⟩
                  · constructor
                    · intro hb
                      exact absurd hb (by simpa using c3)
                    · intro hl
                      exact absurd hl (by simp [isLive])
                  · simpa [maxLive] using c5
                  · rw [c4]
                    simp [tasksLive, isLive]
              · rw [if_neg h3]
                exact ⟨by simpa [ledInv] using hinv,
                  by simpa [maxLive, liveRun] using tasksLive_le_one d,
                  by simp [liveRun, tasksLive]⟩

/-- C6 witness: a second "blink" issued to an already-blinking device:
the invariant holds afterwards and the live-thread count never exceeds
one (the old thread's endTask precedes the new spawnTask). -/
theorem led_single_blink_task_witness :
    ledInv (led_write ⟨22, true, .LED_BLINK, [0, 0, 0, 0, 0, 0, 0], .live 4⟩
      [66, 76, 73, 78, 75] (some 9)).2.1 ∧
    maxLive (tasksLive ⟨22, true, .LED_BLINK, [0, 0, 0, 0, 0, 0, 0], .live 4⟩)
      (led_write ⟨22, true, .LED_BLINK, [0, 0, 0, 0, 0, 0, 0], .live 4⟩
        [66, 76, 73, 78, 75] (some 9)).2.2 ≤ 1 ∧
    (liveRun (tasksLive ⟨22, true, .LED_BLINK, [0, 0, 0, 0, 0, 0, 0], .live 4⟩)
      (led_write ⟨22, true, .LED_BLINK, [0, 0, 0, 0, 0, 0, 0], .live 4⟩
        [66, 76, 73, 78, 75] (some 9)).2.2).1 =
      tasksLive (led_write ⟨22, true, .LED_BLINK, [0, 0, 0, 0, 0, 0, 0], .live 4⟩
        [66, 76, 73, 78, 75] (some 9)).2.1 :=
  led_single_blink_task ⟨22, true, .LED_BLINK, [0, 0, 0, 0, 0, 0, 0], .live 4⟩ _ _
    (by simp [ledInv, isLive])
    (LedStep.write [66, 76, 73, 78, 75] (some 9)
      ⟨22, true, .LED_BLINK, [0, 0, 0, 0, 0, 0, 0], .live 4⟩)
